import Mathlib

/-!
Verification of the NSightful telemetry engine (`src-tauri/src/nvml.rs`,
`src/main.rs`) against its natural-language specification.

The Rust code is shallowly embedded: pure estimation helpers become Lean
functions; the streaming and recording loops become fuel/count-indexed
state-passing functions parameterised over the outcomes of the external
NVML queries (each query outcome is an `Except String` value, mirroring
`Result` in the source); `tokio::spawn` bodies become functions from the
spawned computation's outcome to the final shared state.  A Rust panic
(e.g. `u64` division by zero) is a distinct `RunOutcome.panicked`
constructor, because a panic unwinds past cleanup code that an `Err`
return would reach.
-/

set_option maxRecDepth 4096

namespace NSightful

/-- Substring test at the head of a character list. -/
def matchesAt : List Char → List Char → Bool
  | [], _ => true
  | _ :: _, [] => false
  | p :: ps, c :: cs => p == c && matchesAt ps cs

/-- Substring occurrence test over character lists. -/
def strContainsAux (pat : List Char) : List Char → Bool
  | [] => pat.isEmpty
  | c :: rest => matchesAt pat (c :: rest) || strContainsAux pat rest

/-- Embedding of Rust `str::contains` (contiguous substring occurrence). -/
def strContains (s pat : String) : Bool :=
  strContainsAux pat.toList s.toList

/-- Embedding of `estimate_gpu_specs` (nvml.rs lines 201-220): SM count and
cores per SM guessed from the device name. -/
def estimate_gpu_specs (name : String) : Nat × Nat :=
  if strContains name "RTX 4090" then (128, 128)
  else if strContains name "RTX 4080" then (76, 128)
  else if strContains name "RTX 4070" then (46, 128)
  else if strContains name "RTX 3090" then (82, 128)
  else if strContains name "RTX 3080" then (68, 128)
  else if strContains name "RTX 3070" then (46, 128)
  else if strContains name "GTX" then (20, 128)
  else (32, 128)

/-- Embedding of `estimate_memory_bandwidth` (nvml.rs lines 503-519):
rated peak bandwidth from the name table, scaled by memory utilization. -/
def estimate_memory_bandwidth (name : String) (memory_util : Nat) : Float :=
  let max_bandwidth : Float :=
    if strContains name "RTX 4090" then 1008.0
    else if strContains name "RTX 4080" then 717.0
    else if strContains name "RTX 4070" then 504.0
    else if strContains name "RTX 3090" then 936.0
    else if strContains name "RTX 3080" then 760.0
    else 500.0
  max_bandwidth * (Float.ofNat memory_util / 100.0)

/-- Embedding of `generate_sm_utilizations` (nvml.rs lines 449-461): one
entry per SM, the overall utilization fraction plus a fixed index-derived
offset, clamped to [0, 1]. -/
def generate_sm_utilizations (overall_util : Nat) (sm_count : Nat) : List Float :=
  let base_util : Float := Float.ofNat overall_util / 100.0
  (List.range sm_count).map (fun i =>
    let variance : Float :=
      Float.sin (Float.ofNat i * 0.1) * 0.2
        + Float.ofNat ((i * 17) % 100) / 500.0 - 0.1
    let lo : Float := if base_util + variance < 0.0 then 0.0 else base_util + variance
    if 1.0 < lo then 1.0 else lo)

/-- Embedding of `estimate_pcie_utilization` (nvml.rs lines 522-525),
with the Rust `as u32` float cast rendered via `Float.toUInt32`. -/
def estimate_pcie_utilization (gpu_util memory_util : Nat) : Nat :=
  ((Float.ofNat (gpu_util + memory_util)) * 0.3).toUInt32.toNat

/-- One raw per-device NVML query result: the fields read by the sampling
loops (utilization rates, memory info, clocks, temperature, power, fan). -/
structure RawSample where
  utilGpu : Nat
  utilMemory : Nat
  memUsed : Nat
  memTotal : Nat
  smClock : Nat
  memClock : Nat
  temp : Nat
  powerMw : Option Nat
  fanSpeed : Option Nat

/-- Embedding of the `TelemetryFrame` struct (nvml.rs lines 20-36). -/
structure TelemetryFrame where
  timestamp : Nat
  device_index : Nat
  name : String
  util_gpu : Nat
  util_memory : Nat
  memory_used_mb : Nat
  memory_total_mb : Nat
  sm_clock_mhz : Nat
  memory_clock_mhz : Nat
  temperature_c : Nat
  power_w : Float
  fan_speed_percent : Nat
  sm_utilizations : List Float
  memory_bandwidth_gbps : Float
  pcie_utilization : Nat

/-- Frame built by the plain `nvml_stream` loop body (nvml.rs lines
341-357); note the fixed 32-element `sm_utilizations` vector of the
source ("Simplified"). -/
def mk_stream_frame (t i : Nat) (name : String) (s : RawSample) : TelemetryFrame :=
  { timestamp := t
    device_index := i
    name := name
    util_gpu := s.utilGpu
    util_memory := s.utilMemory
    memory_used_mb := s.memUsed / (1024 * 1024)
    memory_total_mb := s.memTotal / (1024 * 1024)
    sm_clock_mhz := s.smClock
    memory_clock_mhz := s.memClock
    temperature_c := s.temp
    power_w := Float.ofNat (s.powerMw.getD 0) / 1000.0
    fan_speed_percent := s.fanSpeed.getD 0
    sm_utilizations := List.replicate 32 (Float.ofNat s.utilGpu / 100.0)
    memory_bandwidth_gbps := estimate_memory_bandwidth name s.utilMemory
    pcie_utilization := ((Float.ofNat (s.utilGpu + s.utilMemory)) * 0.3).toUInt32.toNat }

/-- Frame built by the `nvml_stream_with_broadcast` loop body (nvml.rs
lines 413-429): the per-SM vector comes from `generate_sm_utilizations`
applied to the name-estimated SM count. -/
def mk_broadcast_frame (t i : Nat) (name : String) (s : RawSample) : TelemetryFrame :=
  { timestamp := t
    device_index := i
    name := name
    util_gpu := s.utilGpu
    util_memory := s.utilMemory
    memory_used_mb := s.memUsed / (1024 * 1024)
    memory_total_mb := s.memTotal / (1024 * 1024)
    sm_clock_mhz := s.smClock
    memory_clock_mhz := s.memClock
    temperature_c := s.temp
    power_w := Float.ofNat (s.powerMw.getD 0) / 1000.0
    fan_speed_percent := s.fanSpeed.getD 0
    sm_utilizations := generate_sm_utilizations s.utilGpu (estimate_gpu_specs name).1
    memory_bandwidth_gbps := estimate_memory_bandwidth name s.utilMemory
    pcie_utilization := ((Float.ofNat (s.utilGpu + s.utilMemory)) * 0.3).toUInt32.toNat }

/-- Frame built by `create_simple_telemetry_frame` (nvml.rs lines
464-500), used by the recording path. -/
def create_simple_telemetry_frame (t i : Nat) (name : String) (s : RawSample) : TelemetryFrame :=
  { timestamp := t
    device_index := i
    name := name
    util_gpu := s.utilGpu
    util_memory := s.utilMemory
    memory_used_mb := s.memUsed / (1024 * 1024)
    memory_total_mb := s.memTotal / (1024 * 1024)
    sm_clock_mhz := s.smClock
    memory_clock_mhz := s.memClock
    temperature_c := s.temp
    power_w := Float.ofNat (s.powerMw.getD 0) / 1000.0
    fan_speed_percent := s.fanSpeed.getD 0
    sm_utilizations := generate_sm_utilizations s.utilGpu (estimate_gpu_specs name).1
    memory_bandwidth_gbps := estimate_memory_bandwidth name s.utilMemory
    pcie_utilization := estimate_pcie_utilization s.utilGpu s.utilMemory }

/-- Effective sampling period of both stream entry points (nvml.rs lines
324-327 and 384-386): `if period_ms < 50 { period_ms = 50 }`. -/
def effective_period (period_ms : Nat) : Nat :=
  if period_ms < 50 then 50 else period_ms

/-- One tick of a streaming loop over the enumerated devices in index
order.  Each device's NVML query is one `Except` outcome; a `?` failure
in the source aborts the tick, so the result carries the frames built
before the failure and the aborting error, if any. -/
def stream_tick (mkFrame : Nat → Nat → String → RawSample → TelemetryFrame)
    (t : Nat) (query : Nat → Except String RawSample) :
    Nat → List String → List TelemetryFrame × Option String
  | _, [] => ([], none)
  | i, name :: rest =>
    match query i with
    | .error e => ([], some e)
    | .ok s =>
      let r := stream_tick mkFrame t query (i + 1) rest
      (mkFrame t i name s :: r.1, r.2)

/-- The streaming loop, fuel-indexed (the source loop runs forever until
the streaming flag is cleared or a device query error propagates).
Returns the frames published so far and the aborting error, if any. -/
def stream_loop (mkFrame : Nat → Nat → String → RawSample → TelemetryFrame)
    (queries : Nat → Nat → Except String RawSample)
    (streaming : Nat → Bool) (devices : List String) :
    Nat → Nat → List TelemetryFrame → List TelemetryFrame × Option String
  | 0, _, acc => (acc, none)
  | fuel + 1, t, acc =>
    if streaming t then
      let r := stream_tick mkFrame t (queries t) 0 devices
      match r.2 with
      | some e => (acc ++ r.1, some e)
      | none => stream_loop mkFrame queries streaming devices fuel (t + 1) (acc ++ r.1)
    else (acc, none)

/-- Embedding of `nvml_stream` (nvml.rs lines 324-363): clamps the
period, enumerates devices once, then loops with no stop flag; every
device query uses `?`, so any failure ends the function with that
error. -/
def nvml_stream (period_ms : Nat) (enumerate : Except String (List String))
    (queries : Nat → Nat → Except String RawSample) (fuel : Nat) :
    Except String (Nat × List TelemetryFrame) :=
  let p := effective_period period_ms
  match enumerate with
  | .error e => .error e
  | .ok devices =>
    match stream_loop mk_stream_frame queries (fun _ => true) devices fuel 0 [] with
    | (frames, none) => .ok (p, frames)
    | (_, some e) => .error e

/-- Embedding of `nvml_stream_with_broadcast` (nvml.rs lines 378-446):
clamps the period, enumerates devices once, then loops while the
`is_streaming` flag (read at the top of each tick) is set; every device
query uses `?`, so any failure ends the function with that error. -/
def nvml_stream_with_broadcast (period_ms : Nat) (enumerate : Except String (List String))
    (streaming : Nat → Bool) (queries : Nat → Nat → Except String RawSample) (fuel : Nat) :
    Except String (Nat × List TelemetryFrame) :=
  let p := effective_period period_ms
  match enumerate with
  | .error e => .error e
  | .ok devices =>
    match stream_loop mk_broadcast_frame queries streaming devices fuel 0 [] with
    | (frames, none) => .ok (p, frames)
    | (_, some e) => .error e

/-- The per-SM vector of `generate_sm_utilizations` has exactly
`sm_count` entries. -/
theorem generate_sm_utilizations_length (u n : Nat) :
    (generate_sm_utilizations u n).length = n := by
  unfold generate_sm_utilizations
  simp

/-- Embedding of the streaming half of `TelemetryState` (main.rs lines
20-24): the `is_streaming` flag and the optional broadcast-sender
handle (channels are identified abstractly by a number). -/
structure TelemetryState where
  is_streaming : Bool
  sender : Option Nat
deriving Repr, DecidableEq

/-- Result of a `start_nvml_stream` call: the command's return value,
the streaming state afterwards, and whether a background sampling task
was spawned. -/
structure StreamStartOutcome where
  result : Except String String
  state' : TelemetryState
  spawned : Bool

/-- Embedding of the `start_nvml_stream` command (main.rs lines 61-94):
if already streaming, return `Ok` at once; otherwise set the flag,
install a fresh broadcast channel and spawn the sampling loop.  Note
that device enumeration happens inside the spawned task, not here. -/
def start_nvml_stream (period_ms : Nat) (freshChannel : Nat)
    (st : TelemetryState) : StreamStartOutcome :=
  let _ := period_ms
  if st.is_streaming then
    { result := .ok "Stream already active", state' := st, spawned := false }
  else
    { result := .ok "Stream started"
      state' := { is_streaming := true, sender := some freshChannel }
      spawned := true }

/-- Embedding of the `RecordingStatus` struct (nvml.rs lines 638-647). -/
structure RecordingStatus where
  is_recording : Bool
  session_id : Option String
  duration_seconds : Option Nat
  elapsed_seconds : Option Nat
  sample_rate_hz : Option Nat
  metrics : List String
  samples_collected : Nat
  output_file : Option String
deriving Repr, DecidableEq

/-- Result of a `start_interval_recording` call: the returned value,
the shared `RECORDING_STATE` afterwards, and whether the recording task
was spawned. -/
structure StartOutcome where
  result : Except String String
  state' : Option RecordingStatus
  spawned : Bool

/-- The non-error branch of `start_interval_recording` (nvml.rs lines
703-738): build the session id and output path from the current time,
install the initial status and spawn the recording task. -/
def start_interval_recording_go (now duration_seconds sample_rate_hz : Nat)
    (metrics : List String) : StartOutcome :=
  let session_id := "rec_" ++ toString now
  let output_file := "recordings/gpu_recording_" ++ session_id ++ ".json"
  let recording_status : RecordingStatus :=
    { is_recording := true
      session_id := some session_id
      duration_seconds := some duration_seconds
      elapsed_seconds := some 0
      sample_rate_hz := some sample_rate_hz
      metrics := metrics
      samples_collected := 0
      output_file := some output_file }
  { result := .ok session_id, state' := some recording_status, spawned := true }

/-- Embedding of `start_interval_recording` (nvml.rs lines 688-739):
refuse when the shared status says a session is recording; note the
absence of any validation of `sample_rate_hz`. -/
def start_interval_recording (now : Nat) (state : Option RecordingStatus)
    (duration_seconds sample_rate_hz : Nat) (metrics : List String) : StartOutcome :=
  match state with
  | some status =>
    if status.is_recording then
      { result := .error "Recording already in progress"
        state' := some status, spawned := false }
    else start_interval_recording_go now duration_seconds sample_rate_hz metrics
  | none => start_interval_recording_go now duration_seconds sample_rate_hz metrics

/-- Embedding of `collect_telemetry_frame` (nvml.rs lines 837-847): an
explicit error when no device is present, otherwise the frame of
`create_simple_telemetry_frame` for device 0. -/
def collect_telemetry_frame (now device_count : Nat)
    (query0 : Except String (String × RawSample)) : Except String TelemetryFrame :=
  if device_count = 0 then .error "No NVIDIA GPUs found"
  else
    match query0 with
    | .error e => .error e
    | .ok (name, s) => .ok (create_simple_telemetry_frame now 0 name s)

/-- In-flight state of the recording loop: the shared `RECORDING_STATE`
and the in-memory sample accumulator. -/
structure RunState where
  shared : Option RecordingStatus
  samples : List TelemetryFrame

/-- One iteration of the recording loop body (nvml.rs lines 796-824):
attempt one sample (a failure is skipped), then under the state lock
set `samples_collected` and `elapsed_seconds` and break if the status's
flag was cleared externally.  `stopReq idx` says whether a concurrent
`stop_interval_recording` cleared the flag before this tick's check.
The returned `Bool` is the `break` decision. -/
def run_tick (sample_rate_hz : Nat) (collect : Nat → Except String TelemetryFrame)
    (stopReq : Nat → Bool) (idx : Nat) (rs : RunState) : RunState × Bool :=
  let samples' :=
    match collect idx with
    | .ok frame => rs.samples ++ [frame]
    | .error _ => rs.samples
  let sharedNow :=
    if stopReq idx then rs.shared.map (fun st => { st with is_recording := false })
    else rs.shared
  match sharedNow with
  | none => (⟨none, samples'⟩, false)
  | some status =>
    let status' := { status with
      samples_collected := idx + 1
      elapsed_seconds := some (idx / sample_rate_hz) }
    (⟨some status', samples'⟩, !status'.is_recording)

/-- The `for sample_idx in 0..total_samples` loop of
`run_interval_recording`, running `n` remaining ticks from index `idx`,
stopping early when a tick breaks. -/
def run_ticks (sample_rate_hz : Nat) (collect : Nat → Except String TelemetryFrame)
    (stopReq : Nat → Bool) : Nat → Nat → RunState → RunState
  | 0, _, rs => rs
  | n + 1, idx, rs =>
    let r := run_tick sample_rate_hz collect stopReq idx rs
    if r.2 then r.1 else run_ticks sample_rate_hz collect stopReq n (idx + 1) r.1

/-- How one execution of the recording task's body ended: a normal
return, an `Err` return, or a Rust panic (which unwinds past any code
after the call). -/
inductive RunOutcome
  | ok
  | error (msg : String)
  | panicked (msg : String)
deriving Repr, DecidableEq

/-- Embedding of `run_interval_recording` (nvml.rs lines 779-834):
create the output directory, compute `interval_ms = 1000 /
sample_rate_hz` — a `u64` division that panics in Rust when
`sample_rate_hz` is zero, modelled as `RunOutcome.panicked` — run
`duration_seconds * sample_rate_hz` ticks, then serialize and write the
accumulated samples.  `mkdir` and `writeFile` are the outcomes of the
two filesystem calls. -/
def run_interval_recording (duration_seconds sample_rate_hz : Nat)
    (collect : Nat → Except String TelemetryFrame) (stopReq : Nat → Bool)
    (mkdir : Except String Unit) (writeFile : List TelemetryFrame → Except String Unit)
    (init : Option RecordingStatus) : RunOutcome × RunState :=
  match mkdir with
  | .error e => (.error e, ⟨init, []⟩)
  | .ok _ =>
    if sample_rate_hz = 0 then
      (.panicked "attempt to divide by zero", ⟨init, []⟩)
    else
      let total_samples := duration_seconds * sample_rate_hz
      let final := run_ticks sample_rate_hz collect stopReq total_samples 0 ⟨init, []⟩
      match writeFile final.samples with
      | .error e => (.error e, final)
      | .ok _ => (.ok, final)

/-- The tail of the spawned closure in `start_interval_recording`
(nvml.rs lines 726-736): after `run_interval_recording` returns — `Ok`
or `Err` — the shared state is set to `None`; a panic unwinds past that
assignment, leaving the shared state as the loop left it. -/
def recording_task_final_state (out : RunOutcome)
    (shared : Option RecordingStatus) : Option RecordingStatus :=
  match out with
  | .panicked _ => shared
  | _ => none

/-- The whole spawned recording task: run the loop, then clear the
shared state unless the run panicked.  Returns the final shared state
and the run's outcome. -/
def recording_task (duration_seconds sample_rate_hz : Nat)
    (collect : Nat → Except String TelemetryFrame) (stopReq : Nat → Bool)
    (mkdir : Except String Unit) (writeFile : List TelemetryFrame → Except String Unit)
    (init : Option RecordingStatus) : Option RecordingStatus × RunOutcome :=
  let r := run_interval_recording duration_seconds sample_rate_hz collect stopReq
    mkdir writeFile init
  (recording_task_final_state r.1 r.2.shared, r.1)

/-- The frames appended by ticks `idx, idx+1, …, idx+n-1`: one frame
per successful `collect`, in tick order. -/
def collectFrames (collect : Nat → Except String TelemetryFrame) (idx : Nat) :
    Nat → List TelemetryFrame
  | 0 => []
  | n + 1 =>
    (match collect idx with
     | .ok frame => [frame]
     | .error _ => []) ++ collectFrames collect (idx + 1) n

/-- The number of ticks among `idx, …, idx+n-1` whose `collect`
succeeded. -/
def countOk (collect : Nat → Except String TelemetryFrame) (idx : Nat) : Nat → Nat
  | 0 => 0
  | n + 1 =>
    (match collect idx with
     | .ok _ => 1
     | .error _ => 0) + countOk collect (idx + 1) n

/-- A tick with no stop request and a live status never breaks: it
updates the counters and appends the sampled frame, if any. -/
theorem run_tick_live (rate : Nat) (collect : Nat → Except String TelemetryFrame)
    (idx : Nat) (s : RecordingStatus) (acc : List TelemetryFrame)
    (hrec : s.is_recording = true) :
    run_tick rate collect (fun _ => false) idx ⟨some s, acc⟩
      = (⟨some { s with samples_collected := idx + 1,
                        elapsed_seconds := some (idx / rate) },
          acc ++ collectFrames collect idx 1⟩, false) := by
  unfold run_tick collectFrames
  cases h : collect idx <;> simp [h, hrec, collectFrames]

/-- With no external stop request and a live status, `n ≥ 1` ticks from
index `idx` leave `samples_collected = idx + n`, `elapsed_seconds =
(idx + n - 1) / rate`, and append exactly the frames of the successful
ticks. -/
theorem run_ticks_no_stop (rate : Nat) (collect : Nat → Except String TelemetryFrame) :
    ∀ (n : Nat), 1 ≤ n → ∀ (idx : Nat) (s : RecordingStatus) (acc : List TelemetryFrame),
    s.is_recording = true →
    run_ticks rate collect (fun _ => false) n idx ⟨some s, acc⟩
      = ⟨some { s with samples_collected := idx + n,
                       elapsed_seconds := some ((idx + n - 1) / rate) },
         acc ++ collectFrames collect idx n⟩ := by
  intro n
  induction n with
  | zero => omega
  | succ m ih =>
    intro _ idx s acc hrec
    simp only [run_ticks]
    rw [run_tick_live rate collect idx s acc hrec]
    by_cases hm : m = 0
    · subst hm
      simp [run_ticks]
    · have h1m : 1 ≤ m := Nat.one_le_iff_ne_zero.mpr hm
      simp only [Bool.false_eq_true, if_false]
      rw [ih h1m (idx + 1)
        { s with samples_collected := idx + 1, elapsed_seconds := some (idx / rate) }
        (acc ++ collectFrames collect idx 1) (by simp [hrec])]
      have e1 : idx + 1 + m = idx + (m + 1) := by omega
      have e2 : idx + 1 + m - 1 = idx + (m + 1) - 1 := by omega
      simp only [e1, e2, List.append_assoc]
      have hsplit : collectFrames collect idx 1 ++ collectFrames collect (idx + 1) m
          = collectFrames collect idx (m + 1) := by
        simp [collectFrames]
      rw [hsplit]

/-- `collectFrames` has one entry per successful tick. -/
theorem collectFrames_length (collect : Nat → Except String TelemetryFrame) :
    ∀ (n idx : Nat), (collectFrames collect idx n).length = countOk collect idx n := by
  intro n
  induction n with
  | zero => intro idx; rfl
  | succ m ih =>
    intro idx
    simp only [collectFrames, countOk, List.length_append, ih]
    cases h : collect idx <;> simp [h]

/-- At most one frame is appended per tick. -/
theorem countOk_le (collect : Nat → Except String TelemetryFrame) :
    ∀ (n idx : Nat), countOk collect idx n ≤ n := by
  intro n
  induction n with
  | zero => intro idx; exact Nat.le_refl 0
  | succ m ih =>
    intro idx
    simp only [countOk]
    have := ih (idx + 1)
    cases h : collect idx <;> simp [h] <;> omega

/-- A concrete raw sample for concrete evaluations. -/
def sampleA : RawSample :=
  { utilGpu := 50, utilMemory := 40, memUsed := 1073741824, memTotal := 2147483648,
    smClock := 1500, memClock := 7000, temp := 60, powerMw := some 200000,
    fanSpeed := some 40 }

/-- A concrete telemetry frame for concrete evaluations. -/
def frameB : TelemetryFrame :=
  { timestamp := 0, device_index := 0, name := "RTX 4090", util_gpu := 50,
    util_memory := 40, memory_used_mb := 1024, memory_total_mb := 2048,
    sm_clock_mhz := 1500, memory_clock_mhz := 7000, temperature_c := 60,
    power_w := 200.0, fan_speed_percent := 40, sm_utilizations := [],
    memory_bandwidth_gbps := 400.0, pcie_utilization := 27 }

/-- A per-tick collection schedule whose first tick fails and whose
later ticks succeed. -/
def collectB : Nat → Except String TelemetryFrame :=
  fun i => if i = 0 then .error "Failed to initialize NVML" else .ok frameB

/-- A concrete live recording status. -/
def statusB : RecordingStatus :=
  { is_recording := true, session_id := some "rec_42", duration_seconds := some 5,
    elapsed_seconds := some 0, sample_rate_hz := some 10, metrics := ["util"],
    samples_collected := 0, output_file := some "recordings/gpu_recording_rec_42.json" }

/-- Claim C1, settled against the code: in both streaming loops every
per-device NVML query is propagated with `?`, so a single device's
failing query ends the whole sampling loop with that error — the device
is not skipped for the tick, and neither the remaining devices of the
tick nor any later tick are processed.  Here device 1 fails while
device 0 and the flag stay healthy, yet both stream functions return
the error. -/
theorem c1_device_failure_aborts_stream :
    nvml_stream_with_broadcast 100 (.ok ["RTX 4090", "RTX 4080"]) (fun _ => true)
        (fun _ i => if i = 0 then .ok sampleA else .error "GPU query failed") 5
      = .error "GPU query failed" ∧
    nvml_stream 100 (.ok ["RTX 4090", "RTX 4080"])
        (fun _ i => if i = 0 then .ok sampleA else .error "GPU query failed") 5
      = .error "GPU query failed" :=
  ⟨rfl, rfl⟩

/-- Claim C2, settled against the code: `start_interval_recording`
accepts `sample_rate_hz = 0` (returns the session id and spawns the
loop), and the loop's interval computation `1000 / sample_rate_hz` is
then evaluated with a zero divisor, which in Rust panics at runtime —
the required validation is absent. -/
theorem c2_zero_rate_not_rejected :
    (start_interval_recording 42 none 5 0 ["util"]).result = .ok "rec_42" ∧
    (start_interval_recording 42 none 5 0 ["util"]).spawned = true ∧
    (run_interval_recording 5 0 (fun _ => .error "skip") (fun _ => false) (.ok ())
        (fun _ => .ok ()) (start_interval_recording 42 none 5 0 ["util"]).state').1
      = .panicked "attempt to divide by zero" :=
  ⟨rfl, rfl, rfl⟩

/-- Claim C3: starting a recording while the shared status holds an
active session fails with the "already recording" error, leaves the
existing status untouched and spawns no loop. -/
theorem c3_start_while_recording_rejected (now d r : Nat) (m : List String)
    (s : RecordingStatus) (h : s.is_recording = true) :
    (start_interval_recording now (some s) d r m).result
        = .error "Recording already in progress" ∧
    (start_interval_recording now (some s) d r m).state' = some s ∧
    (start_interval_recording now (some s) d r m).spawned = false := by
  unfold start_interval_recording
  simp [h]

/-- Concrete instance of `c3_start_while_recording_rejected`. -/
theorem c3_start_while_recording_rejected_witness :
    (start_interval_recording 99 (some statusB) 5 10 ["util"]).result
        = .error "Recording already in progress" ∧
    (start_interval_recording 99 (some statusB) 5 10 ["util"]).state' = some statusB ∧
    (start_interval_recording 99 (some statusB) 5 10 ["util"]).spawned = false :=
  c3_start_while_recording_rejected 99 5 10 ["util"] statusB rfl

/-- Claim C4: calling `start_nvml_stream` while the bus is active
returns success, spawns no second loop and leaves the streaming state —
flag and fan-out channel handle — unchanged. -/
theorem c4_start_stream_idempotent_when_active (p ch : Nat) (st : TelemetryState)
    (h : st.is_streaming = true) :
    (start_nvml_stream p ch st).result = .ok "Stream already active" ∧
    (start_nvml_stream p ch st).state' = st ∧
    (start_nvml_stream p ch st).spawned = false := by
  unfold start_nvml_stream
  simp [h]

/-- Concrete instance of `c4_start_stream_idempotent_when_active`. -/
theorem c4_start_stream_idempotent_when_active_witness :
    (start_nvml_stream 100 7 ⟨true, some 3⟩).result = .ok "Stream already active" ∧
    (start_nvml_stream 100 7 ⟨true, some 3⟩).state' = ⟨true, some 3⟩ ∧
    (start_nvml_stream 100 7 ⟨true, some 3⟩).spawned = false :=
  c4_start_stream_idempotent_when_active 100 7 ⟨true, some 3⟩ rfl

/-- Claim C5: both stream entry points clamp the requested period to
`max p 50` milliseconds, and starting with period 10 is
indistinguishable from starting with period 50. -/
theorem c5_period_clamped_to_50 (p : Nat) :
    effective_period p = max p 50 ∧
    (∀ e st q fuel, nvml_stream_with_broadcast 10 e st q fuel
        = nvml_stream_with_broadcast 50 e st q fuel) ∧
    (∀ e q fuel, nvml_stream 10 e q fuel = nvml_stream 50 e q fuel) := by
  refine ⟨?_, fun e st q fuel => rfl, fun e q fuel => rfl⟩
  unfold effective_period
  split <;> omega

/-- Claim C6: whenever the recording task's body returns — natural
completion, early external stop, or an `Err` such as a persistence
failure — the shared status is cleared to `None`.  The hypothesis
`sample_rate_hz ≠ 0` excludes the division-by-zero panic (claim C2's
defect), the only exit that unwinds past the clearing assignment. -/
theorem c6_recording_loop_clears_status (d r : Nat)
    (collect : Nat → Except String TelemetryFrame) (stopReq : Nat → Bool)
    (mkdir : Except String Unit) (writeFile : List TelemetryFrame → Except String Unit)
    (init : Option RecordingStatus) (h : r ≠ 0) :
    (recording_task d r collect stopReq mkdir writeFile init).1 = none := by
  unfold recording_task run_interval_recording
  cases mkdir with
  | error e => rfl
  | ok u =>
    simp only [if_neg h]
    cases hw : writeFile (run_ticks r collect stopReq (d * r) 0 ⟨init, []⟩).samples <;>
      simp [hw, recording_task_final_state]

/-- Concrete instance of `c6_recording_loop_clears_status`: the write
to the output file fails, yet the status is cleared. -/
theorem c6_recording_loop_clears_status_witness :
    (recording_task 1 1 (fun _ => .error "no gpu") (fun _ => false) (.ok ())
        (fun _ => .error "Failed to write recording file") (some statusB)).1 = none :=
  c6_recording_loop_clears_status 1 1 (fun _ => .error "no gpu") (fun _ => false)
    (.ok ()) (fun _ => .error "Failed to write recording file") (some statusB)
    (by decide)

/-- Claim C7: sample enrichment is deterministic — two calls to
`generate_sm_utilizations` on identical inputs return identical
vectors, and two calls to `estimate_memory_bandwidth` on identical
inputs return identical values; both are pure functions of exactly
their arguments. -/
theorem c7_enrichment_deterministic (u n u2 n2 mu mu2 : Nat) (name name2 : String)
    (hu : u = u2) (hn : n = n2) (hname : name = name2) (hmu : mu = mu2) :
    generate_sm_utilizations u n = generate_sm_utilizations u2 n2 ∧
    estimate_memory_bandwidth name mu = estimate_memory_bandwidth name2 mu2 := by
  subst hu
  subst hn
  subst hname
  subst hmu
  exact ⟨rfl, rfl⟩

/-- Concrete instance of `c7_enrichment_deterministic`. -/
theorem c7_enrichment_deterministic_witness :
    generate_sm_utilizations 80 4 = generate_sm_utilizations 80 4 ∧
    estimate_memory_bandwidth "RTX 4090" 50 = estimate_memory_bandwidth "RTX 4090" 50 :=
  c7_enrichment_deterministic 80 4 80 4 50 50 "RTX 4090" "RTX 4090" rfl rfl rfl rfl

/-- Claim C8 is false as stated: the plain `nvml_stream` path builds a
fixed 32-entry per-SM vector, while the name-derived estimate for an
"RTX 4090" device is 128 compute units. -/
theorem c8_stream_frame_length_cex :
    (mk_stream_frame 0 0 "RTX 4090" sampleA).sm_utilizations.length = 32 ∧
    (estimate_gpu_specs "RTX 4090").1 = 128 ∧ (32 : Nat) ≠ 128 :=
  ⟨rfl, rfl, by decide⟩

/-- Claim C8 as amended: frames of the broadcast streaming path and the
recording path carry a per-SM vector whose length is the name-estimated
compute-unit count, while the plain `nvml_stream` path always uses
length 32 (equal to the estimate only for names that fall to the
generic fallback). -/
theorem c8_sm_vector_length_amended (t i : Nat) (name : String) (s : RawSample) :
    (mk_broadcast_frame t i name s).sm_utilizations.length
        = (estimate_gpu_specs name).1 ∧
    (create_simple_telemetry_frame t i name s).sm_utilizations.length
        = (estimate_gpu_specs name).1 ∧
    (mk_stream_frame t i name s).sm_utilizations.length = 32 := by
  refine ⟨?_, ?_, ?_⟩
  · unfold mk_broadcast_frame
    exact generate_sm_utilizations_length _ _
  · unfold create_simple_telemetry_frame
    exact generate_sm_utilizations_length _ _
  · unfold mk_stream_frame
    simp

/-- Claim C9 is false as stated: with enumeration failing (or zero
devices present), both start operations still return success at once —
`start_nvml_stream` reports "Stream started" and spawns the task, and
`start_interval_recording` returns the session id — while the
enumeration error only materialises inside the background work:
the streaming loop body ends with the error, and the recording path's
per-tick `collect_telemetry_frame` fails. -/
theorem c9_enumeration_failure_not_surfaced_cex :
    (start_nvml_stream 100 0 ⟨false, none⟩).result = .ok "Stream started" ∧
    (start_nvml_stream 100 0 ⟨false, none⟩).spawned = true ∧
    nvml_stream_with_broadcast 100 (.error "Failed to initialize NVML") (fun _ => true)
        (fun _ _ => .ok sampleA) 3
      = .error "Failed to initialize NVML" ∧
    (start_interval_recording 7 none 5 10 ["util"]).result = .ok "rec_7" ∧
    (start_interval_recording 7 none 5 10 ["util"]).spawned = true ∧
    collect_telemetry_frame 0 0 (.error "unused") = .error "No NVIDIA GPUs found" :=
  ⟨rfl, rfl, rfl, rfl, rfl, rfl⟩

/-- Claim C9 as amended: an enumeration failure is not surfaced to the
caller of start; the start call succeeds and spawns the background
work, and the failure is observed inside it — the streaming loop
terminates with the enumeration error before publishing any frame, and
the recording loop's per-tick collection fails when no device is
present. -/
theorem c9_enumeration_failure_in_background (p ch fuel : Nat) (st : TelemetryState)
    (e : String) (streaming : Nat → Bool) (queries : Nat → Nat → Except String RawSample)
    (h : st.is_streaming = false) :
    (start_nvml_stream p ch st).result = .ok "Stream started" ∧
    (start_nvml_stream p ch st).spawned = true ∧
    nvml_stream_with_broadcast p (.error e) streaming queries fuel = .error e ∧
    (∀ now q, collect_telemetry_frame now 0 q = .error "No NVIDIA GPUs found") := by
  refine ⟨?_, ?_, rfl, fun now q => rfl⟩ <;>
    simp [start_nvml_stream, h]

/-- Concrete instance of `c9_enumeration_failure_in_background`. -/
theorem c9_enumeration_failure_in_background_witness :
    (start_nvml_stream 100 7 ⟨false, none⟩).result = .ok "Stream started" ∧
    (start_nvml_stream 100 7 ⟨false, none⟩).spawned = true ∧
    nvml_stream_with_broadcast 100 (.error "NVML init failed") (fun _ => true)
        (fun _ _ => .ok sampleA) 3 = .error "NVML init failed" ∧
    (∀ now q, collect_telemetry_frame now 0 q = .error "No NVIDIA GPUs found") :=
  c9_enumeration_failure_in_background 100 7 3 ⟨false, none⟩ "NVML init failed"
    (fun _ => true) (fun _ _ => .ok sampleA) rfl

/-- Claim C10: after the recording loop has completed `k ≥ 1` ticks
with no external stop, the shared status's `samples_collected` equals
`k` — the tick index plus one is written on every tick, whether or not
that tick's sample succeeded — while the accumulator holds one frame
per successful tick only, so `samples_collected` can exceed the number
of frames persisted. -/
theorem c10_samples_collected_counts_ticks (rate k : Nat)
    (collect : Nat → Except String TelemetryFrame) (s : RecordingStatus)
    (hrec : s.is_recording = true) (hk : 1 ≤ k) :
    (run_ticks rate collect (fun _ => false) k 0 ⟨some s, []⟩).shared
      = some { s with samples_collected := k,
                      elapsed_seconds := some ((k - 1) / rate) } ∧
    (run_ticks rate collect (fun _ => false) k 0 ⟨some s, []⟩).samples.length
      = countOk collect 0 k ∧
    countOk collect 0 k ≤ k := by
  rw [run_ticks_no_stop rate collect k hk 0 s [] hrec]
  refine ⟨by simp, ?_, countOk_le collect k 0⟩
  simp [collectFrames_length]

/-- Concrete instance of `c10_samples_collected_counts_ticks`: two
ticks, the first failing — `samples_collected` is 2 while only one
frame was accumulated. -/
theorem c10_samples_collected_counts_ticks_witness :
    (run_ticks 10 collectB (fun _ => false) 2 0 ⟨some statusB, []⟩).shared
      = some { statusB with samples_collected := 2,
                            elapsed_seconds := some ((2 - 1) / 10) } ∧
    (run_ticks 10 collectB (fun _ => false) 2 0 ⟨some statusB, []⟩).samples.length
      = countOk collectB 0 2 ∧
    countOk collectB 0 2 ≤ 2 :=
  c10_samples_collected_counts_ticks 10 2 collectB statusB rfl (by decide)

end NSightful
